import Mathlib

/-!
Verification of the ReportConsolidator extraction-and-consolidation pipeline.

The Python sources under scrutiny are shallowly embedded below:
Python strings are Lean `String`s (operated on through their `List Char`
data), Python dicts built by the parsers are association lists with
first-match lookup (the parsers never create duplicate keys), and the
fallible `int()` / `float()` conversions are `Option`-valued parse
functions covering decimal (and for `float` also scientific) notation;
the Python special forms `inf` / `nan` and underscore digit separators
are not modelled.
-/

namespace RC

/-- Substring test on character lists: Python's `in` operator for `str`. -/
def listContains (pat : List Char) : List Char → Bool
  | [] => pat.isPrefixOf []
  | c :: rest => pat.isPrefixOf (c :: rest) || listContains pat rest

/-- Python `pat in s` for strings. -/
def pyContains (s pat : String) : Bool :=
  listContains pat.data s.data

/-- Python regex search of `pat$`: the string ends with `pat`. -/
def pyEndsWith (s pat : String) : Bool :=
  pat.data.isSuffixOf s.data

/-- Python `str.lower` (ASCII case mapping suffices for the keywords used). -/
def pyLower (s : String) : String :=
  ⟨s.data.map Char.toLower⟩

/-- Python `str.upper` (ASCII case mapping suffices for the keywords used). -/
def pyUpper (s : String) : String :=
  ⟨s.data.map Char.toUpper⟩

/-- Left-to-right, non-overlapping replacement of `p :: ps` by `repl`
(the semantics of Python `str.replace` for a non-empty pattern). Fuelled
structural recursion: every step consumes at least one character, so fuel
equal to the input length never runs out. -/
def replaceAllAux (p : Char) (ps repl : List Char) : Nat → List Char → List Char
  | _, [] => []
  | 0, s => s
  | fuel + 1, c :: rest =>
    if (p :: ps).isPrefixOf (c :: rest) then
      repl ++ replaceAllAux p ps repl fuel (rest.drop ps.length)
    else
      c :: replaceAllAux p ps repl fuel rest

/-- Python `s.replace(pat, repl)`; an empty pattern leaves `s` unchanged
(the parsers only ever replace non-empty patterns). -/
def pyReplace (s pat repl : String) : String :=
  match pat.data with
  | [] => s
  | p :: ps => ⟨replaceAllAux p ps repl.data s.data.length s.data⟩

/-- Python dict as built by the parsers: an association list with unique
keys; `d.get(k, default)` is first-match lookup with a default. -/
abbrev PyDict := List (String × String)

/-- Python `d.get(k, default)`. -/
def dictGet (d : PyDict) (k default : String) : String :=
  match d.find? (fun kv => kv.1 = k) with
  | some kv => kv.2
  | none => default

/-- Python `d.get(k)` (no default): `some` value when the key is present. -/
def dictLookup (d : PyDict) (k : String) : Option String :=
  (d.find? (fun kv => kv.1 = k)).map (·.2)

/-- Value of a non-empty run of decimal digits; `none` when a non-digit
occurs or the run is empty. -/
def digitsVal : List Char → Option Nat
  | [] => none
  | cs =>
    if cs.all Char.isDigit then
      some (cs.foldl (fun acc c => acc * 10 + (c.toNat - '0'.toNat)) 0)
    else
      none

/-- ASCII whitespace stripping, both ends: Python's implicit stripping in
`int()` / `float()`. -/
def stripWs (cs : List Char) : List Char :=
  (cs.dropWhile Char.isWhitespace).reverse.dropWhile Char.isWhitespace |>.reverse

/-- Sign splitting: an optional leading `+` or `-`. -/
def splitSign : List Char → Bool × List Char
  | '+' :: rest => (false, rest)
  | '-' :: rest => (true, rest)
  | cs => (false, cs)

/-- Python `int(s)` on a string: optional surrounding whitespace, optional
sign, a non-empty digit run; `none` models the `ValueError`. -/
def pyInt (s : String) : Option Int :=
  let (neg, body) := splitSign (stripWs s.data)
  match digitsVal body with
  | some n => some (if neg then -(n : Int) else (n : Int))
  | none => none

/-- The mantissa of a decimal literal: digits with at most one point,
at least one digit overall. Returns the digits' value together with the
number of fractional digits. -/
def decimalMantissa (cs : List Char) : Option (Nat × Nat) :=
  match cs.splitOn '.' with
  | [intPart] =>
    match digitsVal intPart with
    | some n => some (n, 0)
    | none => none
  | [intPart, fracPart] =>
    if intPart = [] ∧ fracPart = [] then none
    else if (intPart.all Char.isDigit) ∧ (fracPart.all Char.isDigit) then
      let ipVal := intPart.foldl (fun acc c => acc * 10 + (c.toNat - '0'.toNat)) 0
      let fpVal := fracPart.foldl (fun acc c => acc * 10 + (c.toNat - '0'.toNat)) 0
      some (ipVal * 10 ^ fracPart.length + fpVal, fracPart.length)
    else none
  | _ => none

/-- Python `float(s)` for decimal and scientific notation: optional
surrounding whitespace, optional sign, a decimal mantissa, an optional
exponent part introduced by `e` or `E`; `none` models the `ValueError`. -/
def pyFloat (s : String) : Option ℚ :=
  let (neg, body0) := splitSign (stripWs s.data)
  let body := body0.map (fun c => if c = 'E' then 'e' else c)
  match body.splitOn 'e' with
  | [mant] =>
    match decimalMantissa mant with
    | some (m, fracLen) =>
      let signedM : Int := if neg then -(m : Int) else (m : Int)
      some (mkRat signedM (10 ^ fracLen))
    | none => none
  | [mant, expo] =>
    match decimalMantissa mant with
    | some (m, fracLen) =>
      let (eneg, ebody) := splitSign expo
      match digitsVal ebody with
      | some e =>
        let signedM : Int := if neg then -(m : Int) else (m : Int)
        if eneg then
          some (mkRat signedM (10 ^ fracLen * 10 ^ e))
        else
          some (mkRat (signedM * 10 ^ e) (10 ^ fracLen))
      | none => none
    | none => none
  | _ => none

/-- The four-valued verdict produced by the classifiers; the Python code
carries these as the strings "OK" / "WARNING" / "FAIL" / "UNKNOWN". -/
inductive Status where
  | OK
  | WARNING
  | FAIL
  | UNKNOWN
  deriving DecidableEq, Repr

namespace ValidationParser

/-- `ValidationParser._determine_status` (validation_parser.py 232-252):
parse the executive-summary counts `Fallidos` and `Revisar` (defaulting to
the string "0" when the key is absent) as integers; any parse failure is
the `except` branch. In Python both `int()` calls run before the
comparisons, so one failed parse yields UNKNOWN regardless of the other
count; the `match` below captures that. -/
def determine_status (metricas : PyDict) : Status :=
  match pyInt (dictGet metricas "Fallidos" "0"), pyInt (dictGet metricas "Revisar" "0") with
  | some fallidos, some revisar =>
    if fallidos > 0 then .FAIL
    else if revisar > 0 then .WARNING
    else .OK
  | _, _ => .UNKNOWN

/-- Per-standard status normalization (validation_parser.py 148-156):
`if '✅' in estado_text or 'OK' in estado_text.upper(): ...` — each status
value checks its symbol or its keyword together, in the order OK, WARNING,
FAIL, and the keyword is matched against the uppercased cell text. -/
def row_status (estado_text : String) : Status :=
  if pyContains estado_text "✅" || pyContains (pyUpper estado_text) "OK" then .OK
  else if pyContains estado_text "⚠️" || pyContains (pyUpper estado_text) "WARNING" then .WARNING
  else if pyContains estado_text "❌" || pyContains (pyUpper estado_text) "FAIL" then .FAIL
  else .UNKNOWN

/-- The spec's wording of the same normalization, written for comparison
with `row_status`: check the three Unicode symbols first, and only when no
symbol is present fall back to the uppercase keywords, matched against the
raw cell text. -/
def row_status_specModel (estado_text : String) : Status :=
  if pyContains estado_text "✅" then .OK
  else if pyContains estado_text "⚠️" then .WARNING
  else if pyContains estado_text "❌" then .FAIL
  else if pyContains estado_text "OK" then .OK
  else if pyContains estado_text "WARNING" then .WARNING
  else if pyContains estado_text "FAIL" then .FAIL
  else .UNKNOWN

end ValidationParser

namespace BaselineParser

/-- The `verification` dict assembled by `BaselineParser._extract_verification`:
each Python key is present (`some`) only when the corresponding extraction
found something, exactly as in the source (`metricas` is set whenever the
metrics box and table are found, `recomendaciones` only when non-empty). -/
structure Verificacion where
  metricas : Option PyDict
  estado : Option String
  conclusion : Option String
  recomendaciones : Option (List String)
  deriving DecidableEq

/-- Python truthiness of the `verification` dict: non-empty iff some key
was set. -/
def Verificacion.nonempty (v : Verificacion) : Bool :=
  v.metricas.isSome || v.estado.isSome || v.conclusion.isSome || v.recomendaciones.isSome

/-- The inner `try` block of baseline_parser.py 144-164: the derived
verification state, computed from the extracted metrics table. `RMS` and
`Diferencia Máxima` default to the string "0" when absent, commas become
dots, and both values are converted with `float()`; a conversion failure
is the `except` branch producing "UNKNOWN". -/
def verification_estado (metricas : PyDict) : String :=
  match pyFloat (pyReplace (dictGet metricas "RMS" "0") "," "."),
        pyFloat (pyReplace (dictGet metricas "Diferencia Máxima" "0") "," ".") with
  | some rms, some max_diff =>
    if rms < mkRat 5 1000 ∧ max_diff < mkRat 1 100 then "EXCELENTE"
    else if rms < mkRat 1 100 ∧ max_diff < mkRat 15 1000 then "BUENO"
    else if rms < mkRat 15 1000 ∧ max_diff < mkRat 3 100 then "ACEPTABLE"
    else "REQUIERE REVISIÓN"
  | _, _ => "UNKNOWN"

/-- baseline_parser.py 143: `if verification.get('metricas'):` — the
`estado` key is written only when the metrics table was extracted and is
non-empty (truthy); otherwise it stays absent. -/
def extract_verification_estado (metricas : Option PyDict) : Option String :=
  match metricas with
  | some m => if m.isEmpty then none else some (verification_estado m)
  | none => none

/-- `BaselineParser._determine_status` (baseline_parser.py 240-254): the
pass/fail verdict read from the free-text conclusion. The keyword checks
are on the lowercased conclusion (`verification.get('conclusion', '')`);
UNKNOWN is returned only when the whole `verification` dict is empty. -/
def determine_status (verificacion : Verificacion) : Status :=
  if verificacion.nonempty then
    let conclusion := verificacion.conclusion.getD ""
    if pyContains (pyLower conclusion) "exitosa" || pyContains (pyLower conclusion) "correctamente" then
      .OK
    else if pyContains (pyLower conclusion) "warning" || pyContains (pyLower conclusion) "revisar" then
      .WARNING
    else
      .FAIL
  else
    .UNKNOWN

end BaselineParser

namespace PredictionsParser

/-- One product section extracted by
`PredictionsParser._extract_products_data`. -/
structure Producto where
  nombre : String
  parametros : List String
  lamparas : List PyDict

/-- `PredictionsParser._determine_status` (predictions_parser.py 173-184):
OK as soon as at least one product was extracted, UNKNOWN otherwise. -/
def determine_status (productos : List Producto) : Status :=
  if productos.length > 0 then .OK else .UNKNOWN

end PredictionsParser

namespace ConsolidatorV2

/-- The slice of `self.baseline_data` read by the consolidators'
`_determine_global_status`: the `verificacion` sub-dict
(`baseline_data.get('verificacion', {})`). `BaselineParser.parse` always
returns a non-empty dict, so a present baseline report is modelled as
`some` of this record. -/
structure BaselineData where
  verificacion : BaselineParser.Verificacion

/-- The slice of `self.validation_data` read by
`_determine_global_status`: the executive-summary metrics dict
(`validation_data.get('resumen_ejecutivo', {}).get('metricas', {})`,
both defaults collapsing to the empty dict). -/
structure ValidationData where
  resumen_metricas : PyDict

/-- The slice of `self.predictions_data` relevant to the claims: the list
of extracted products. `PredictionsParser.parse` always returns a
non-empty dict, so presence is the `Option` wrapper, independent of
`productos` being empty. -/
structure PredictionsData where
  productos : List PredictionsParser.Producto

/-- The baseline contribution computed inline by the reconciler
(consolidator_v2.py 355-361 and consolidator.py 253-259): `'exitosa' in
conclusion.lower()` yields OK, anything else WARNING. -/
def baseline_status (bd : BaselineData) : Status :=
  let conclusion := bd.verificacion.conclusion.getD ""
  if pyContains (pyLower conclusion) "exitosa" then .OK else .WARNING

/-- The list of per-report verdicts collected by `_determine_global_status`
(consolidator_v2.py 353-380 and consolidator.py 251-278), one entry per
present report, in the fixed order baseline, validation, predictions.
A present predictions report contributes OK unconditionally
("Asumimos OK si hay datos"). -/
def statuses (b : Option BaselineData) (v : Option ValidationData)
    (p : Option PredictionsData) : List Status :=
  (match b with | some bd => [baseline_status bd] | none => [])
  ++ (match v with | some vd => [ValidationParser.determine_status vd.resumen_metricas] | none => [])
  ++ (match p with | some _ => [.OK] | none => [])

/-- The precedence fold at the end of `_determine_global_status`
(consolidator_v2.py 382-390 and consolidator.py 280-288):
FAIL > WARNING > OK, with UNKNOWN when none of those occurs. -/
def globalPrecedence (sts : List Status) : Status :=
  if Status.FAIL ∈ sts then .FAIL
  else if Status.WARNING ∈ sts then .WARNING
  else if Status.OK ∈ sts then .OK
  else .UNKNOWN

/-- `ReportConsolidatorV2._determine_global_status`, identical in
consolidator_v2.py (351-390) and consolidator.py (249-288). -/
def determine_global_status (b : Option BaselineData) (v : Option ValidationData)
    (p : Option PredictionsData) : Status :=
  globalPrecedence (statuses b v p)

end ConsolidatorV2

/-! ## DOM model for the extractors

The report documents are modelled as the sequence of their section `div`
containers in document order (in the report templates all section
containers are top-level siblings, which is what `find_next_siblings`
relies on). Each `div` carries typed views of exactly the queries the
parsers perform on it: its contained tables as rows of cell texts
(`get_text(strip=True)` per cell), its spans, its first `h2` text, its
`h3` texts each paired with the text of the following `p`
(`find_next('p')`), its `p` texts, its first `ul` as the list of `li`
texts, its descendant `div`s, and the content of its next sibling
`script`. -/

namespace Dom

structure SpanM where
  classes : List String
  text : String

structure TableM where
  rows : List (List String)

structure DivM where
  id : Option String
  classes : List String
  text : String
  tables : List TableM
  spans : List SpanM
  h2 : Option String
  h3s : List (String × Option String)
  ps : List String
  ul : Option (List String)
  divs : List DivM
  script : Option String

/-- `soup.find('div', id=i)` together with the remaining later siblings
(for `find_next_siblings`). -/
def findDivWithSiblings (i : String) : List DivM → Option (DivM × List DivM)
  | [] => none
  | d :: rest =>
    if d.id = some i then some (d, rest) else findDivWithSiblings i rest

/-- `soup.find('div', id=i)`. -/
def findDivById (doc : List DivM) (i : String) : Option DivM :=
  (findDivWithSiblings i doc).map Prod.fst

/-- A two-column key/value table: rows with exactly two cells
(`len(cells) == 2`), optionally stripping `:` from the key. -/
def twoColRows (stripColon : Bool) (t : TableM) : PyDict :=
  t.rows.foldl (fun acc row =>
    match row with
    | [k, v] => acc ++ [((if stripColon then pyReplace k ":" "" else k), v)]
    | _ => acc) []

/-- A metric table read after skipping the header row: rows with at least
two cells (`len(cells) >= 2`). -/
def kvRowsSkipHeader (t : TableM) : PyDict :=
  (t.rows.drop 1).foldl (fun acc row =>
    match row with
    | k :: v :: _ => acc ++ [(k, v)]
    | _ => acc) []

/-- The `find_all('div', id=re.compile(r'.*-plot$|plotly-.*'))` id test
(regex search semantics). -/
def plotIdMatch (i : String) : Bool :=
  pyEndsWith i "-plot" || pyContains i "plotly-"

/-- `_extract_plotly_charts` as shared by the parsers: plot containers
found by id pattern, paired with their adjacent script when it calls
`Plotly.newPlot`; pairings that fail are silently skipped. The search
covers the section divs and their direct descendants, where the plot
containers live in the report templates. -/
def extract_plotly_charts (doc : List DivM) : List (String × String) :=
  (doc.flatMap (fun d => d :: d.divs)).foldl (fun acc d =>
    match d.id with
    | some i =>
      if plotIdMatch i then
        match d.script with
        | some sc => if pyContains sc "Plotly.newPlot" then acc ++ [(i, sc)] else acc
        | none => acc
      else acc
    | none => acc) []

end Dom

namespace BaselineParser

/-- `_extract_client_info` (baseline_parser.py 28-41): two-column table in
the `info-cliente` div, keys stripped of `:`. -/
def extract_client_info (doc : List Dom.DivM) : PyDict :=
  match Dom.findDivById doc "info-cliente" with
  | none => []
  | some sec =>
    match sec.tables.head? with
    | none => []
    | some t => Dom.twoColRows true t

/-- The `diagnostico_wstd` dict: keys `metricas` / `estado`, each present
only when found. -/
structure WstdDiagnostics where
  metricas : Option PyDict
  estado : Option String
  deriving DecidableEq

/-- `_extract_wstd_diagnostics` (baseline_parser.py 43-65): metrics table
(header skipped) and the first span with one of the three status
classes. -/
def extract_wstd_diagnostics (doc : List Dom.DivM) : WstdDiagnostics :=
  match Dom.findDivById doc "wstd-section" with
  | none => ⟨none, none⟩
  | some sec =>
    let metricas :=
      match sec.tables.head? with
      | some t => some (Dom.kvRowsSkipHeader t)
      | none => none
    let statusSpans := sec.spans.filter (fun sp =>
      sp.classes.any (fun c => ["status-good", "status-warning", "status-fail"].contains c))
    let estado :=
      match statusSpans with
      | sp :: _ => some sp.text
      | [] => none
    ⟨metricas, estado⟩

/-- `_extract_process_details` (baseline_parser.py 67-80): two-column
table in the `process-details` div (no colon stripping, no header
skip). -/
def extract_process_details (doc : List Dom.DivM) : PyDict :=
  match Dom.findDivById doc "process-details" with
  | none => []
  | some sec =>
    match sec.tables.head? with
    | none => []
    | some t => Dom.twoColRows false t

/-- `_extract_correction_stats` (baseline_parser.py 82-95): metric table
in the `correction-stats` div, header skipped. -/
def extract_correction_stats (doc : List Dom.DivM) : PyDict :=
  match Dom.findDivById doc "correction-stats" with
  | none => []
  | some sec =>
    match sec.tables.head? with
    | none => []
    | some t => Dom.kvRowsSkipHeader t

/-- `_extract_baseline_info` (baseline_parser.py 97-110): two-column table
in the `baseline-info` div. -/
def extract_baseline_info (doc : List Dom.DivM) : PyDict :=
  match Dom.findDivById doc "baseline-info" with
  | none => []
  | some sec =>
    match sec.tables.head? with
    | none => []
    | some t => Dom.twoColRows false t

/-- The regex `status-(good|warning|bad|fail)` applied with search
semantics to a class name. -/
def statusClassSearch (c : String) : Bool :=
  pyContains c "status-good" || pyContains c "status-warning" ||
    pyContains c "status-bad" || pyContains c "status-fail"

/-- `_extract_verification` (baseline_parser.py 112-200): the metrics
table from the first later `info-box` sibling whose `h2` mentions
"Métricas de Verificación"; the derived `estado`
(`extract_verification_estado`); the conclusion joined from the `p` texts
of the first status div (searched inside the section, falling back to
later siblings with an exact status class); and the recommendations from
that div's `ul`, kept only when non-empty. -/
def extract_verification (doc : List Dom.DivM) : Verificacion :=
  match Dom.findDivWithSiblings "verification-section" doc with
  | none => ⟨none, none, none, none⟩
  | some (verifDiv, later) =>
    let info_boxes := later.filter (fun d => d.classes.contains "info-box")
    let metricas : Option PyDict :=
      match info_boxes.find? (fun box =>
        match box.h2 with
        | some t => pyContains t "Métricas de Verificación"
        | none => false) with
      | some box =>
        match box.tables.head? with
        | some t => some (Dom.kvRowsSkipHeader t)
        | none => none
      | none => none
    let estado := extract_verification_estado metricas
    let status_div : Option Dom.DivM :=
      match verifDiv.divs.filter (fun d => d.classes.any statusClassSearch) with
      | sd :: _ => some sd
      | [] => later.find? (fun d =>
          ["status-good", "status-warning", "status-bad", "status-fail"].any
            (fun c => d.classes.contains c))
    let conclusion : Option String :=
      match status_div with
      | some sd =>
        if sd.ps.isEmpty then none
        else some (String.intercalate " " (sd.ps.filter (fun p => ¬p.isEmpty)))
      | none => none
    let recomendaciones : Option (List String) :=
      match status_div with
      | some sd =>
        match sd.ul with
        | some lis => if lis.isEmpty then none else some lis
        | none => none
      | none => none
    ⟨metricas, estado, conclusion, recomendaciones⟩

/-- The record built by `BaselineParser.parse` (baseline_parser.py
14-26). -/
structure BaselineRecord where
  tipo_informe : String
  info_cliente : PyDict
  diagnostico_wstd : WstdDiagnostics
  detalles_proceso : PyDict
  estadisticas_correccion : PyDict
  baseline_generado : PyDict
  verificacion : Verificacion
  graficos : List (String × String)

/-- `BaselineParser.parse`. -/
def parse (doc : List Dom.DivM) : BaselineRecord :=
  ⟨"Baseline Adjustment",
   extract_client_info doc,
   extract_wstd_diagnostics doc,
   extract_process_details doc,
   extract_correction_stats doc,
   extract_baseline_info doc,
   extract_verification doc,
   Dom.extract_plotly_charts doc⟩

end BaselineParser

namespace ValidationParser

/-- `_extract_service_info` (validation_parser.py 27-40): two-column table
in the `info-servicio` div, keys stripped of `:`. -/
def extract_service_info (doc : List Dom.DivM) : PyDict :=
  match Dom.findDivById doc "info-servicio" with
  | none => []
  | some sec =>
    match sec.tables.head? with
    | none => []
    | some t => Dom.twoColRows true t

/-- The emoji cleaning `re.sub(r'[✅⚠️❌]', '', label).strip()` of
validation_parser.py 57: the character class contains ✅, ⚠ (U+26A0), the
variation selector U+FE0F and ❌. -/
def labelClean (s : String) : String :=
  ⟨stripWs (s.data.filter (fun c => !(['✅', '⚠', '️', '❌'].contains c)))⟩

/-- The `resumen_ejecutivo` dict: `metricas` is present whenever the
section is, conclusion/descripcion only when an `h3` mentions
"VALIDACIÓN". -/
structure ResumenEjecutivo where
  metricas : Option PyDict
  conclusion : Option String
  descripcion : Option String
  deriving DecidableEq

/-- `_extract_executive_summary` (validation_parser.py 42-72): metric
cards read into a label→value mapping (labels cleaned of emojis), and the
conclusion/description from the `h3` tags containing "VALIDACIÓN"; the
loop does not break, so a later matching `h3` overwrites the conclusion,
while the description persists when a later match has no following
`p`. -/
def extract_executive_summary (doc : List Dom.DivM) : ResumenEjecutivo :=
  match Dom.findDivById doc "resumen-ejecutivo" with
  | none => ⟨none, none, none⟩
  | some sec =>
    let cards := sec.divs.filter (fun d => d.classes.contains "metric-card")
    let metrics := cards.foldl (fun acc card =>
      match card.divs.find? (fun d => d.classes.contains "metric-value"),
            card.divs.find? (fun d => d.classes.contains "metric-label") with
      | some vdiv, some ldiv => acc ++ [(labelClean ldiv.text, vdiv.text)]
      | _, _ => acc) []
    let cd := sec.h3s.foldl (fun (cd : Option String × Option String) tp =>
      if pyContains tp.1 "VALIDACIÓN" then
        (some tp.1, match tp.2 with | some p => some p | none => cd.2)
      else cd) (none, none)
    ⟨some metrics, cd.1, cd.2⟩

structure Criterio where
  parametro : String
  umbral : String
  descripcion : String
  deriving DecidableEq

/-- `_extract_validation_criteria` (validation_parser.py 74-91): triples
from the criteria table, header skipped, rows with at least three
cells. -/
def extract_validation_criteria (doc : List Dom.DivM) : List Criterio :=
  match Dom.findDivById doc "criterios-validacion" with
  | none => []
  | some sec =>
    match sec.tables.head? with
    | none => []
    | some t =>
      (t.rows.drop 1).foldl (fun acc row =>
        match row with
        | c0 :: c1 :: c2 :: _ => acc ++ [⟨c0, c1, c2⟩]
        | _ => acc) []

structure MetricaAgregada where
  metrica : String
  minimo : String
  maximo : String
  media : String
  desv_est : String
  deriving DecidableEq

structure MetricaClave where
  metrica : String
  valor : String
  evaluacion : String
  deriving DecidableEq

/-- The `estadisticas_globales` dict: each key present only when the
corresponding table exists. -/
structure GlobalStats where
  metricas_agregadas : Option (List MetricaAgregada)
  metricas_clave : Option (List MetricaClave)
  deriving DecidableEq

/-- `_extract_global_stats` (validation_parser.py 93-125): aggregate rows
from the first table (five cells, header skipped), key metrics from the
second. -/
def extract_global_stats (doc : List Dom.DivM) : GlobalStats :=
  match Dom.findDivById doc "estadisticas-globales" with
  | none => ⟨none, none⟩
  | some sec =>
    let agg :=
      match sec.tables with
      | [] => none
      | t :: _ => some ((t.rows.drop 1).foldl (fun acc row =>
          match row with
          | c0 :: c1 :: c2 :: c3 :: c4 :: _ => acc ++ [⟨c0, c1, c2, c3, c4⟩]
          | _ => acc) [])
    let clave :=
      match sec.tables with
      | _ :: t2 :: _ => some ((t2.rows.drop 1).foldl (fun acc row =>
          match row with
          | c0 :: c1 :: c2 :: _ => acc ++ [⟨c0, c1, c2⟩]
          | _ => acc) [])
      | _ => none
    ⟨agg, clave⟩

structure ResultadoDetallado where
  estandar : String
  lampara_ref : String
  lampara_nueva : String
  correlacion : String
  max_diff : String
  rms : String
  shift : String
  estado : Status
  deriving DecidableEq

/-- `_extract_detailed_results` (validation_parser.py 127-169): rows of
the detailed-results table with at least seven cells, header skipped; the
status cell is normalized (`row_status`), the `shift` column defaults to
"N/A". -/
def extract_detailed_results (doc : List Dom.DivM) : List ResultadoDetallado :=
  match Dom.findDivById doc "resultados-detallados" with
  | none => []
  | some sec =>
    match sec.tables.head? with
    | none => []
    | some t =>
      (t.rows.drop 1).foldl (fun acc row =>
        match row with
        | c0 :: c1 :: c2 :: c3 :: c4 :: c5 :: c6 :: rest =>
          acc ++ [⟨c1, c2, c3, c4, c5, c6, rest.headD "N/A", row_status c0⟩]
        | _ => acc) []

/-- The record built by `ValidationParser.parse` (validation_parser.py
14-25). -/
structure ValidationRecord where
  tipo_informe : String
  info_servicio : PyDict
  resumen_ejecutivo : ResumenEjecutivo
  criterios_validacion : List Criterio
  estadisticas_globales : GlobalStats
  resultados_detallados : List ResultadoDetallado
  graficos : List (String × String)

/-- `ValidationParser.parse`. -/
def parse (doc : List Dom.DivM) : ValidationRecord :=
  ⟨"Validación Óptica",
   extract_service_info doc,
   extract_executive_summary doc,
   extract_validation_criteria doc,
   extract_global_stats doc,
   extract_detailed_results doc,
   Dom.extract_plotly_charts doc⟩

end ValidationParser


/-! ## Byte-level embedding machinery

`base64.b64encode` / the browser's `atob` and UTF-8 encoding, modelled on
byte lists (bytes as `Nat < 256`), as used by the v2 renderer's blob
embedding. -/

/-- UTF-8 encoding of one scalar value (`str.encode('utf-8')`,
per character). -/
def utf8EncodeChar (c : Char) : List Nat :=
  if c.toNat < 128 then [c.toNat]
  else if c.toNat < 2048 then
    [192 + c.toNat / 64, 128 + c.toNat % 64]
  else if c.toNat < 65536 then
    [224 + c.toNat / 4096, 128 + (c.toNat / 64) % 64, 128 + c.toNat % 64]
  else
    [240 + c.toNat / 262144, 128 + (c.toNat / 4096) % 64,
      128 + (c.toNat / 64) % 64, 128 + c.toNat % 64]

/-- `s.encode('utf-8')` as a byte list. -/
def utf8Encode (s : String) : List Nat :=
  (s.data.map utf8EncodeChar).flatten

/-- The base64 alphabet of RFC 4648, as used by `base64.b64encode`. -/
def b64Alphabet : List Char :=
  "ABCDEFGHIJKLMNOPQRSTUVWXYZabcdefghijklmnopqrstuvwxyz0123456789+/".data

/-- The base64 digit for a sextet. -/
def b64Char (n : Nat) : Char :=
  b64Alphabet.getD n '?'

/-- First index of a character in a list. -/
def listIndexOf (c : Char) : List Char → Option Nat
  | [] => none
  | x :: xs => if x = c then some 0 else (listIndexOf c xs).map (· + 1)

/-- The sextet of a base64 digit (`none` for padding or foreign
characters). -/
def b64CharDec (c : Char) : Option Nat :=
  listIndexOf c b64Alphabet

/-- `base64.b64encode` on a byte list. -/
def b64Encode : List Nat → List Char
  | [] => []
  | [a] => [b64Char (a / 4), b64Char ((a % 4) * 16), '=', '=']
  | [a, b] =>
    [b64Char (a / 4), b64Char ((a % 4) * 16 + b / 16), b64Char ((b % 16) * 4), '=']
  | a :: b :: c :: rest =>
    b64Char (a / 4) :: b64Char ((a % 4) * 16 + b / 16) ::
      b64Char ((b % 16) * 4 + c / 64) :: b64Char (c % 64) :: b64Encode rest

/-- Base64 decoding (the browser's `atob`), the inverse reading of
`b64Encode`'s chunks. -/
def b64Decode : List Char → Option (List Nat)
  | [] => some []
  | c1 :: c2 :: c3 :: c4 :: rest =>
    match b64CharDec c1, b64CharDec c2 with
    | some s1, some s2 =>
      if c3 = '=' then
        if c4 = '=' ∧ rest = [] then some [s1 * 4 + s2 / 16] else none
      else
        match b64CharDec c3 with
        | some s3 =>
          if c4 = '=' then
            if rest = [] then some [s1 * 4 + s2 / 16, (s2 % 16) * 16 + s3 / 4]
            else none
          else
            match b64CharDec c4, b64Decode rest with
            | some s4, some bs =>
              some ((s1 * 4 + s2 / 16) :: ((s2 % 16) * 16 + s3 / 4) ::
                ((s3 % 4) * 64 + s4) :: bs)
            | _, _ => none
        | none => none
    | _, _ => none
  | _ => none

namespace ConsolidatorV2

/-! The literal fragments of `_generate_collapsible_section`
(consolidator_v2.py 688-782 and consolidator.py 582-610), reproduced
exactly from the source templates; `{` `}` `'` are written as `\x7b`
`\x7d` `\x27`. -/


def sidebar_fix_script : String :=
  "\n        <script>\n        // Fix para navegación de sidebar en Blob URLs\n        document.addEventListener(\x27DOMContentLoaded\x27, function() \x7b\n            const sidebarLinks = document.querySelectorAll(\x27.sidebar a[href^=\"#\"]\x27);\n            sidebarLinks.forEach(link => \x7b\n                link.addEventListener(\x27click\x27, function(e) \x7b\n                    e.preventDefault();\n                    const targetId = this.getAttribute(\x27href\x27).substring(1);\n                    const targetElement = document.getElementById(targetId);\n                    if (targetElement) \x7b\n                        targetElement.scrollIntoView(\x7b behavior: \x27smooth\x27, block: \x27start\x27 \x7d);\n                    \x7d\n                \x7d);\n            \x7d);\n        \x7d);\n        </script>\n        "

def v2_tpl_0 : String :=
  "\n        <div class=\"report-section\" id=\""

def v2_tpl_1 : String :=
  "\">\n            <details>\n                <summary class=\"section-header\">\n                    <h2>"

def v2_tpl_2 : String :=
  "</h2>\n                </summary>\n                \n                <div class=\"parsed-content\">\n                    "

def v2_tpl_3 : String :=
  "\n                </div>\n                \n                <div class=\"full-report-link\">\n                    <button id=\""

def v2_tpl_4 : String :=
  "\" class=\"open-full-report-btn\">\n                        📄 Abrir Informe Completo en Nueva Pestaña\n                    </button>\n                    <p class=\"report-link-description\">\n                        Se abrirá el informe original completo con todos los gráficos interactivos y detalles.\n                    </p>\n                </div>\n            </details>\n        </div>\n        \n        <script>\n        (function() \x7b\n            const btn = document.getElementById(\x27"

def v2_tpl_5 : String :=
  "\x27);\n            // HTML codificado en base64 para evitar problemas de escapado\n            const htmlBase64 = \x27"

def v2_tpl_6 : String :=
  "\x27;\n            \n            btn.addEventListener(\x27click\x27, function() \x7b\n                try \x7b\n                    // Decodificar base64 a string UTF-8 correctamente\n                    // atob() devuelve binary string, necesitamos convertir a UTF-8\n                    const binaryString = atob(htmlBase64);\n                    const bytes = new Uint8Array(binaryString.length);\n                    for (let i = 0; i < binaryString.length; i++) \x7b\n                        bytes[i] = binaryString.charCodeAt(i);\n                    \x7d\n                    const htmlContent = new TextDecoder(\x27utf-8\x27).decode(bytes);\n                    \n                    // Crear Blob con el HTML\n                    const blob = new Blob([htmlContent], \x7b type: \x27text/html;charset=utf-8\x27 \x7d);\n                    \n                    // Crear URL del Blob\n                    const blobUrl = URL.createObjectURL(blob);\n                    \n                    // Abrir en nueva pestaña\n                    window.open(blobUrl, \x27_blank\x27);\n                    \n                    // Limpiar el Blob URL después de un tiempo\n                    setTimeout(function() \x7b\n                        URL.revokeObjectURL(blobUrl);\n                    \x7d, 5000);\n                \x7d catch (error) \x7b\n                    console.error(\x27Error al abrir el informe:\x27, error);\n                    alert(\x27Error al abrir el informe. Por favor, intente nuevamente.\x27);\n                \x7d\n            \x7d);\n        \x7d)();\n        </script>\n        "

def legacy_tpl_0 : String :=
  "\n        <div class=\"report-section\" id=\""

def legacy_tpl_1 : String :=
  "\">\n            <details>\n                <summary class=\"section-header\">\n                    <h2>"

def legacy_tpl_2 : String :=
  "</h2>\n                </summary>\n                \n                <div class=\"parsed-content\">\n                    "

def legacy_tpl_3 : String :=
  "\n                </div>\n                \n                <details class=\"full-report-toggle\">\n                    <summary class=\"view-full-report\">\n                        🔍 Ver Informe Original Completo\n                    </summary>\n                    <div class=\"iframe-container\">\n                        <iframe srcdoc=\""

def legacy_tpl_4 : String :=
  "\" \n                                style=\"width:100%; height:800px; border:1px solid #ddd; border-radius:5px;\">\n                        </iframe>\n                    </div>\n                </details>\n            </details>\n        </div>\n        "



/-- consolidator_v2.py 710-714: the sidebar-fix script is inserted before
every `</body>` occurrence, or appended when the document has none. -/
def inject_sidebar_fix (html_content : String) : String :=
  if pyContains html_content "</body>" then
    pyReplace html_content "</body>" (sidebar_fix_script ++ "</body>")
  else
    html_content ++ sidebar_fix_script

/-- consolidator_v2.py 716-718: the base64 blob payload,
`base64.b64encode(html_modified.encode('utf-8'))`. -/
def collapsible_payload (html_content : String) : String :=
  ⟨b64Encode (utf8Encode (inject_sidebar_fix html_content))⟩

/-- consolidator_v2.py 721:
`button_id = f"btn-{section_id}-{id(html_content) % 100000}"`. `addr`
stands for the CPython object identity `id(html_content)`, a runtime
input (the object's memory address). -/
def button_id (section_id : String) (addr : Nat) : String :=
  "btn-" ++ section_id ++ "-" ++ toString (addr % 100000)

/-- `_generate_collapsible_section` of consolidator_v2.py (688-782): the
f-string assembled from its literal fragments and interpolated values. -/
def generate_collapsible_section
    (section_id title parsed_summary html_content : String) (addr : Nat) : String :=
  v2_tpl_0 ++ section_id ++ v2_tpl_1 ++ title ++ v2_tpl_2 ++ parsed_summary ++
    v2_tpl_3 ++ button_id section_id addr ++ v2_tpl_4 ++ button_id section_id addr ++
    v2_tpl_5 ++ collapsible_payload html_content ++ v2_tpl_6

/-- consolidator.py 585: the legacy iframe escaping,
`html_content.replace('"', '&quot;').replace('\n', ' ')`. -/
def iframe_escape (html_content : String) : String :=
  pyReplace (pyReplace html_content "\"" "&quot;") "\n" " "

/-- The browser's reading of the `srcdoc` attribute value: entity-decode
`&quot;` back to `"`. -/
def srcdoc_decode (s : String) : String :=
  pyReplace s "&quot;" "\""

/-- `_generate_collapsible_section` of consolidator.py (582-610). -/
def generate_collapsible_section_legacy
    (section_id title parsed_summary html_content : String) : String :=
  legacy_tpl_0 ++ section_id ++ legacy_tpl_1 ++ title ++ legacy_tpl_2 ++
    parsed_summary ++ legacy_tpl_3 ++ iframe_escape html_content ++ legacy_tpl_4

end ConsolidatorV2

/-! ## Helper lemmas -/

/-- A singleton verdict list reconciles to its only element. -/
theorem globalPrecedence_singleton (s : Status) :
    ConsolidatorV2.globalPrecedence [s] = s := by
  cases s <;> decide

/-- A key found by `dictLookup` is what `dictGet` returns. -/
theorem dictGet_eq_of_lookup_some {d : PyDict} {k v : String} (d0 : String)
    (h : dictLookup d k = some v) : dictGet d k d0 = v := by
  unfold dictLookup at h
  unfold dictGet
  cases hf : d.find? (fun kv => kv.1 = k) with
  | none => rw [hf] at h; simp at h
  | some kv => rw [hf] at h; simp at h; exact h

/-- An absent key makes `dictGet` return its default. -/
theorem dictGet_eq_default_of_lookup_none {d : PyDict} {k : String} (d0 : String)
    (h : dictLookup d k = none) : dictGet d k d0 = d0 := by
  unfold dictLookup at h
  unfold dictGet
  cases hf : d.find? (fun kv => kv.1 = k) with
  | none => rfl
  | some kv => rw [hf] at h; simp at h

/-- A dict with a found key is non-empty. -/
theorem isEmpty_false_of_lookup_some {d : PyDict} {k v : String}
    (h : dictLookup d k = some v) : d.isEmpty = false := by
  cases d with
  | nil => simp [dictLookup, List.find?] at h
  | cons hd tl => rfl

/-- When `find` by id fails, the sibling-aware search fails too. -/
theorem findDivWithSiblings_eq_none {doc : List Dom.DivM} {i : String}
    (h : Dom.findDivById doc i = none) : Dom.findDivWithSiblings i doc = none := by
  unfold Dom.findDivById at h
  cases hf : Dom.findDivWithSiblings i doc with
  | none => rfl
  | some p => rw [hf] at h; simp at h

/-- Decoding a base64 digit returns its sextet. -/
theorem b64CharDec_b64Char : ∀ s : Nat, s < 64 → b64CharDec (b64Char s) = some s := by
  decide

/-- Base64 digits are never the padding character. -/
theorem b64Char_ne_pad : ∀ s : Nat, s < 64 → b64Char s ≠ '=' := by
  decide

/-- Base64 decoding inverts base64 encoding on byte lists. -/
theorem b64_roundtrip (bs : List Nat) (h : ∀ b ∈ bs, b < 256) :
    b64Decode (b64Encode bs) = some bs := by
  match bs with
  | [] => rfl
  | [a] =>
    have ha : a < 256 := h a (by simp)
    have h1 : a / 4 < 64 := by omega
    have h2 : (a % 4) * 16 < 64 := by omega
    simp only [b64Encode, b64Decode, b64CharDec_b64Char _ h1, b64CharDec_b64Char _ h2]
    simp
    omega
  | [a, b] =>
    have ha : a < 256 := h a (by simp)
    have hb : b < 256 := h b (by simp)
    have h1 : a / 4 < 64 := by omega
    have h2 : (a % 4) * 16 + b / 16 < 64 := by omega
    have h3 : (b % 16) * 4 < 64 := by omega
    simp only [b64Encode, b64Decode, b64CharDec_b64Char _ h1, b64CharDec_b64Char _ h2,
      b64CharDec_b64Char _ h3, if_neg (b64Char_ne_pad _ h3)]
    simp
    omega
  | a :: b :: c :: rest =>
    have ha : a < 256 := h a (by simp)
    have hb : b < 256 := h b (by simp)
    have hc : c < 256 := h c (by simp)
    have ih := b64_roundtrip rest (fun x hx => h x (by simp [hx]))
    have h1 : a / 4 < 64 := by omega
    have h2 : (a % 4) * 16 + b / 16 < 64 := by omega
    have h3 : (b % 16) * 4 + c / 64 < 64 := by omega
    have h4 : c % 64 < 64 := by omega
    simp only [b64Encode, b64Decode, b64CharDec_b64Char _ h1, b64CharDec_b64Char _ h2,
      b64CharDec_b64Char _ h3, b64CharDec_b64Char _ h4,
      if_neg (b64Char_ne_pad _ h3), if_neg (b64Char_ne_pad _ h4), ih]
    simp
    omega

/-- UTF-8 encoding produces bytes. -/
theorem utf8EncodeChar_lt (c : Char) : ∀ b ∈ utf8EncodeChar c, b < 256 := by
  have hv : c.toNat < 1114112 := by
    rcases c.valid with h | ⟨h1, h2⟩
    · exact Nat.lt_trans h (by norm_num)
    · exact h2
  intro b hb
  unfold utf8EncodeChar at hb
  split at hb
  · simp at hb; omega
  · split at hb
    · simp at hb; rcases hb with hb | hb <;> omega
    · split at hb
      · simp at hb; rcases hb with hb | hb | hb <;> omega
      · simp at hb; rcases hb with hb | hb | hb | hb <;> omega

/-- UTF-8 encoding of a string produces bytes. -/
theorem utf8Encode_lt (s : String) : ∀ b ∈ utf8Encode s, b < 256 := by
  intro b hb
  unfold utf8Encode at hb
  rw [List.mem_flatten] at hb
  rcases hb with ⟨l, hl, hb⟩
  rw [List.mem_map] at hl
  rcases hl with ⟨c, _, rfl⟩
  exact utf8EncodeChar_lt c b hb

/-- The blob payload decodes to the UTF-8 bytes of the script-injected
document. -/
theorem payload_decode (html_content : String) :
    b64Decode (ConsolidatorV2.collapsible_payload html_content).data =
      some (utf8Encode (ConsolidatorV2.inject_sidebar_fix html_content)) :=
  b64_roundtrip _ (utf8Encode_lt _)

/-! ## Claims -/

/-- C1: The global status reconciler, given the list of per-report verdicts
collected from whichever of the three reports are present, returns FAIL if
any verdict is FAIL; otherwise WARNING if any verdict is WARNING; otherwise
OK if any verdict is OK; otherwise (no reports present, or all verdicts
UNKNOWN) UNKNOWN — and a single present report fully determines the global
status: with only one report present the global status is exactly that
report's collected verdict. -/
theorem C1_global_precedence :
    (∀ sts : List Status,
      (Status.FAIL ∈ sts → ConsolidatorV2.globalPrecedence sts = .FAIL) ∧
      (Status.FAIL ∉ sts → Status.WARNING ∈ sts →
        ConsolidatorV2.globalPrecedence sts = .WARNING) ∧
      (Status.FAIL ∉ sts → Status.WARNING ∉ sts → Status.OK ∈ sts →
        ConsolidatorV2.globalPrecedence sts = .OK) ∧
      ((∀ s ∈ sts, s = Status.UNKNOWN) → ConsolidatorV2.globalPrecedence sts = .UNKNOWN)) ∧
    ConsolidatorV2.determine_global_status none none none = .UNKNOWN ∧
    (∀ bd, ConsolidatorV2.determine_global_status (some bd) none none =
      ConsolidatorV2.baseline_status bd) ∧
    (∀ vd, ConsolidatorV2.determine_global_status none (some vd) none =
      ValidationParser.determine_status vd.resumen_metricas) ∧
    (∀ pd, ConsolidatorV2.determine_global_status none none (some pd) = .OK) := by
  refine ⟨?_, by decide, ?_, ?_, ?_⟩
  · intro sts
    refine ⟨?_, ?_, ?_, ?_⟩
    · intro h
      simp [ConsolidatorV2.globalPrecedence, h]
    · intro h1 h2
      simp [ConsolidatorV2.globalPrecedence, h1, h2]
    · intro h1 h2 h3
      simp [ConsolidatorV2.globalPrecedence, h1, h2, h3]
    · intro h
      have hf : Status.FAIL ∉ sts := fun hc => by cases h _ hc
      have hw : Status.WARNING ∉ sts := fun hc => by cases h _ hc
      have ho : Status.OK ∉ sts := fun hc => by cases h _ hc
      simp [ConsolidatorV2.globalPrecedence, hf, hw, ho]
  · intro bd
    exact globalPrecedence_singleton _
  · intro vd
    exact globalPrecedence_singleton _
  · intro pd
    exact globalPrecedence_singleton _

/-- Witness for C1 at concrete inputs: a FAIL among the verdicts dominates,
and an all-UNKNOWN list reconciles to UNKNOWN. -/
theorem C1_global_precedence_witness :
    ConsolidatorV2.globalPrecedence [Status.OK, Status.FAIL] = Status.FAIL ∧
    ConsolidatorV2.globalPrecedence [Status.UNKNOWN, Status.UNKNOWN] = Status.UNKNOWN :=
  ⟨(C1_global_precedence.1 [Status.OK, Status.FAIL]).1 (by decide),
   (C1_global_precedence.1 [Status.UNKNOWN, Status.UNKNOWN]).2.2.2 (by decide)⟩

/-- C2: The validation per-report verdict equals FAIL when the
executive-summary metric `Fallidos` parses to an integer greater than 0;
else WARNING when `Revisar` parses to an integer greater than 0; else OK;
and equals UNKNOWN exactly when one of the counts is unparsable as an
integer (absent counts default to the parsable string "0"). -/
theorem C2_validation_status (metricas : PyDict) :
    (∀ f r : Int,
      pyInt (dictGet metricas "Fallidos" "0") = some f →
      pyInt (dictGet metricas "Revisar" "0") = some r →
      ValidationParser.determine_status metricas =
        (if 0 < f then .FAIL else if 0 < r then .WARNING else .OK)) ∧
    (ValidationParser.determine_status metricas = .UNKNOWN ↔
      (pyInt (dictGet metricas "Fallidos" "0") = none ∨
       pyInt (dictGet metricas "Revisar" "0") = none)) := by
  constructor
  · intro f r hf hr
    simp [ValidationParser.determine_status, hf, hr]
  · unfold ValidationParser.determine_status
    cases hf : pyInt (dictGet metricas "Fallidos" "0") <;>
      cases hr : pyInt (dictGet metricas "Revisar" "0") <;>
        simp
    split_ifs <;> simp

/-- Witness for C2 at concrete inputs: `Fallidos = "2"` yields FAIL, and an
unparsable `Fallidos` yields UNKNOWN. -/
theorem C2_validation_status_witness :
    ValidationParser.determine_status [("Fallidos", "2"), ("Revisar", "1")] = .FAIL ∧
    ValidationParser.determine_status [("Fallidos", "n/a")] = .UNKNOWN :=
  ⟨((C2_validation_status [("Fallidos", "2"), ("Revisar", "1")]).1 2 1
      (by decide) (by decide)).trans (by decide),
   (C2_validation_status [("Fallidos", "n/a")]).2.mpr (Or.inl (by decide))⟩

/-- C3: For every baseline verification block whose metrics table contains
RMS and Diferencia Máxima entries, the derived verification state is
EXCELENTE when RMS < 0.005 and Max Diff < 0.01; else BUENO when RMS < 0.01
and Max Diff < 0.015; else ACEPTABLE when RMS < 0.015 and Max Diff < 0.03;
else REQUIERE REVISIÓN — both values parsed as decimals after replacing
',' by '.', and the state UNKNOWN whenever either value fails to parse as
a number. -/
theorem C3_verification_thresholds (metricas : PyDict) (rs ms : String)
    (hrs : dictLookup metricas "RMS" = some rs)
    (hms : dictLookup metricas "Diferencia Máxima" = some ms) :
    (∀ rms max_diff : ℚ,
      pyFloat (pyReplace rs "," ".") = some rms →
      pyFloat (pyReplace ms "," ".") = some max_diff →
      BaselineParser.extract_verification_estado (some metricas) =
        some (if rms < mkRat 5 1000 ∧ max_diff < mkRat 1 100 then "EXCELENTE"
          else if rms < mkRat 1 100 ∧ max_diff < mkRat 15 1000 then "BUENO"
          else if rms < mkRat 15 1000 ∧ max_diff < mkRat 3 100 then "ACEPTABLE"
          else "REQUIERE REVISIÓN")) ∧
    ((pyFloat (pyReplace rs "," ".") = none ∨ pyFloat (pyReplace ms "," ".") = none) →
      BaselineParser.extract_verification_estado (some metricas) = some "UNKNOWN") := by
  have hemp : metricas.isEmpty = false := isEmpty_false_of_lookup_some hrs
  have hgr : dictGet metricas "RMS" "0" = rs := dictGet_eq_of_lookup_some _ hrs
  have hgm : dictGet metricas "Diferencia Máxima" "0" = ms := dictGet_eq_of_lookup_some _ hms
  constructor
  · intro rms max_diff hfr hfm
    simp [BaselineParser.extract_verification_estado, hemp,
      BaselineParser.verification_estado, hgr, hgm, hfr, hfm]
  · intro h
    rcases h with h | h <;>
      (simp only [BaselineParser.extract_verification_estado, hemp,
        Bool.false_eq_true, if_false, BaselineParser.verification_estado, hgr, hgm, h];
       all_goals (cases pyFloat (pyReplace rs "," ".") <;>
         cases pyFloat (pyReplace ms "," ".") <;> simp_all))

/-- Witness for C3 at concrete inputs: RMS "0.003" / Max Diff "0.008" is
EXCELENTE, the comma-decimal RMS "0,012" with Max Diff "0.02" is
ACEPTABLE, and an unparsable RMS yields UNKNOWN. -/
theorem C3_verification_thresholds_witness :
    BaselineParser.extract_verification_estado
      (some [("RMS", "0.003"), ("Diferencia Máxima", "0.008")]) = some "EXCELENTE" ∧
    BaselineParser.extract_verification_estado
      (some [("RMS", "0,012"), ("Diferencia Máxima", "0.02")]) = some "ACEPTABLE" ∧
    BaselineParser.extract_verification_estado
      (some [("RMS", "n/a"), ("Diferencia Máxima", "0.008")]) = some "UNKNOWN" :=
  ⟨((C3_verification_thresholds [("RMS", "0.003"), ("Diferencia Máxima", "0.008")]
      "0.003" "0.008" (by decide) (by decide)).1 (mkRat 3 1000) (mkRat 8 1000)
      (by decide) (by decide)).trans (by decide),
   ((C3_verification_thresholds [("RMS", "0,012"), ("Diferencia Máxima", "0.02")]
      "0,012" "0.02" (by decide) (by decide)).1 (mkRat 12 1000) (mkRat 2 100)
      (by decide) (by decide)).trans (by decide),
   (C3_verification_thresholds [("RMS", "n/a"), ("Diferencia Máxima", "0.008")]
      "n/a" "0.008" (by decide) (by decide)).2 (Or.inl (by decide))⟩

/-- C10: If the baseline verification metrics table is present and
non-empty but lacks an RMS or a Diferencia Máxima entry, the missing value
is substituted with the string "0" before threshold classification; in
particular a non-empty metrics table containing neither entry is
classified EXCELENTE rather than UNKNOWN. -/
theorem C10_missing_metric_defaults (metricas : PyDict) (hne : metricas ≠ []) :
    (dictLookup metricas "RMS" = none → dictGet metricas "RMS" "0" = "0") ∧
    (dictLookup metricas "Diferencia Máxima" = none →
      dictGet metricas "Diferencia Máxima" "0" = "0") ∧
    (dictLookup metricas "RMS" = none → dictLookup metricas "Diferencia Máxima" = none →
      BaselineParser.extract_verification_estado (some metricas) = some "EXCELENTE") := by
  have hemp : metricas.isEmpty = false := by
    cases metricas with
    | nil => exact absurd rfl hne
    | cons hd tl => rfl
  refine ⟨fun h => dictGet_eq_default_of_lookup_none _ h,
    fun h => dictGet_eq_default_of_lookup_none _ h, fun h1 h2 => ?_⟩
  simp [BaselineParser.extract_verification_estado, hemp,
    BaselineParser.verification_estado,
    dictGet_eq_default_of_lookup_none _ h1, dictGet_eq_default_of_lookup_none _ h2]
  decide

/-- Witness for C10 at a concrete input: a non-empty metrics table without
RMS and Diferencia Máxima entries is classified EXCELENTE. -/
theorem C10_missing_metric_defaults_witness :
    BaselineParser.extract_verification_estado
      (some [("Otro", "1.0")]) = some "EXCELENTE" :=
  (C10_missing_metric_defaults [("Otro", "1.0")] (by decide)).2.2 (by decide) (by decide)

/-- Counterexample to C4 as stated: a conclusion containing the claimed
keywords "successful" and "correctly" (so the claim predicts OK) is
classified FAIL by the parser — the code matches the Spanish substrings
'exitosa' / 'correctamente' instead — and WARNING by the reconciler's own
inline baseline classification. -/
theorem C4_counterexample :
    pyContains (pyLower "Adjustment completed successfully and correctly") "successful" = true ∧
    pyContains (pyLower "Adjustment completed successfully and correctly") "correctly" = true ∧
    BaselineParser.determine_status
      ⟨none, none, some "Adjustment completed successfully and correctly", none⟩ = .FAIL ∧
    ConsolidatorV2.baseline_status
      ⟨⟨none, none, some "Adjustment completed successfully and correctly", none⟩⟩ =
      .WARNING := by
  refine ⟨by decide, by decide, by decide, by decide⟩

/-- C4 as amended: the parser's baseline verdict comes from the free-text
conclusion via Spanish keywords — containing 'exitosa' or 'correctamente'
(case-insensitive) → OK; else 'warning' or 'revisar' → WARNING; otherwise
FAIL — and is UNKNOWN exactly when the whole verification record is empty
(a missing conclusion alone, with other verification fields present,
yields FAIL). The reconciler does not reuse this verdict: it reclassifies
the conclusion inline, 'exitosa' → OK and anything else → WARNING. -/
theorem C4_baseline_conclusion_keywords (v : BaselineParser.Verificacion) :
    (v.nonempty = false → BaselineParser.determine_status v = .UNKNOWN) ∧
    (v.nonempty = true →
      ((pyContains (pyLower (v.conclusion.getD "")) "exitosa" ||
        pyContains (pyLower (v.conclusion.getD "")) "correctamente") = true →
        BaselineParser.determine_status v = .OK) ∧
      ((pyContains (pyLower (v.conclusion.getD "")) "exitosa" ||
        pyContains (pyLower (v.conclusion.getD "")) "correctamente") = false →
       (pyContains (pyLower (v.conclusion.getD "")) "warning" ||
        pyContains (pyLower (v.conclusion.getD "")) "revisar") = true →
        BaselineParser.determine_status v = .WARNING) ∧
      ((pyContains (pyLower (v.conclusion.getD "")) "exitosa" ||
        pyContains (pyLower (v.conclusion.getD "")) "correctamente") = false →
       (pyContains (pyLower (v.conclusion.getD "")) "warning" ||
        pyContains (pyLower (v.conclusion.getD "")) "revisar") = false →
        BaselineParser.determine_status v = .FAIL)) ∧
    (∀ bd : ConsolidatorV2.BaselineData,
      (pyContains (pyLower (bd.verificacion.conclusion.getD "")) "exitosa" = true →
        ConsolidatorV2.baseline_status bd = .OK) ∧
      (pyContains (pyLower (bd.verificacion.conclusion.getD "")) "exitosa" = false →
        ConsolidatorV2.baseline_status bd = .WARNING)) := by
  refine ⟨fun h => ?_, fun h => ⟨fun h1 => ?_, fun h1 h2 => ?_, fun h1 h2 => ?_⟩,
    fun bd => ⟨fun h => ?_, fun h => ?_⟩⟩ <;>
    simp_all [BaselineParser.determine_status, ConsolidatorV2.baseline_status]

/-- Witness for the amended C4 at concrete inputs: an empty verification
record is UNKNOWN, the conclusion "El ajuste se completó correctamente" is
OK, "Se recomienda revisar" is WARNING, "El ajuste falló" is FAIL, and the
reconciler's inline rule sends a non-'exitosa' conclusion to WARNING. -/
theorem C4_baseline_conclusion_keywords_witness :
    BaselineParser.determine_status ⟨none, none, none, none⟩ = .UNKNOWN ∧
    BaselineParser.determine_status
      ⟨none, none, some "El ajuste se completó correctamente", none⟩ = .OK ∧
    BaselineParser.determine_status
      ⟨none, none, some "Se recomienda revisar", none⟩ = .WARNING ∧
    BaselineParser.determine_status
      ⟨none, none, some "El ajuste falló", none⟩ = .FAIL ∧
    ConsolidatorV2.baseline_status
      ⟨⟨none, none, some "Validación exitosa", none⟩⟩ = .OK ∧
    ConsolidatorV2.baseline_status
      ⟨⟨none, none, some "El ajuste se completó correctamente", none⟩⟩ = .WARNING :=
  ⟨(C4_baseline_conclusion_keywords ⟨none, none, none, none⟩).1 (by decide),
   ((C4_baseline_conclusion_keywords
      ⟨none, none, some "El ajuste se completó correctamente", none⟩).2.1
      (by decide)).1 (by decide),
   ((C4_baseline_conclusion_keywords
      ⟨none, none, some "Se recomienda revisar", none⟩).2.1
      (by decide)).2.1 (by decide) (by decide),
   ((C4_baseline_conclusion_keywords
      ⟨none, none, some "El ajuste falló", none⟩).2.1
      (by decide)).2.2 (by decide) (by decide),
   ((C4_baseline_conclusion_keywords
      ⟨none, none, some "Validación exitosa", none⟩).2.2
      ⟨⟨none, none, some "Validación exitosa", none⟩⟩).1 (by decide),
   ((C4_baseline_conclusion_keywords
      ⟨none, none, some "El ajuste se completó correctamente", none⟩).2.2
      ⟨⟨none, none, some "El ajuste se completó correctamente", none⟩⟩).2 (by decide)⟩

/-- Counterexample to C7 as stated: a present predictions report with zero
extracted products is UNKNOWN for the parser, but the reconciler still
collects OK for it, so the global status of a predictions-only run with no
products is OK, not UNKNOWN. -/
theorem C7_counterexample :
    PredictionsParser.determine_status ([] : List PredictionsParser.Producto) = .UNKNOWN ∧
    ConsolidatorV2.statuses none none (some ⟨[]⟩) = [Status.OK] ∧
    ConsolidatorV2.determine_global_status none none (some ⟨[]⟩) = .OK := by
  refine ⟨by decide, rfl, by decide⟩

/-- C7 as amended: the predictions parser's verdict is OK when at least one
product result was extracted and UNKNOWN when zero were; the reconciler,
however, contributes OK for any present predictions report, regardless of
the extracted products. -/
theorem C7_predictions_status (productos : List PredictionsParser.Producto) :
    (productos ≠ [] → PredictionsParser.determine_status productos = .OK) ∧
    (productos = [] → PredictionsParser.determine_status productos = .UNKNOWN) ∧
    (∀ b v pd, ConsolidatorV2.statuses b v (some pd) =
      ConsolidatorV2.statuses b v none ++ [Status.OK]) := by
  refine ⟨fun h => ?_, fun h => ?_, fun b v pd => ?_⟩
  · cases productos with
    | nil => exact absurd rfl h
    | cons hd tl => simp [PredictionsParser.determine_status]
  · subst h; rfl
  · simp [ConsolidatorV2.statuses]

/-- Witness for the amended C7 at concrete inputs: one extracted product is
OK for the parser, and a product-less predictions report still contributes
OK to the reconciler. -/
theorem C7_predictions_status_witness :
    PredictionsParser.determine_status [⟨"Producto A", [], []⟩] = .OK ∧
    ConsolidatorV2.statuses none none (some ⟨[]⟩) =
      ConsolidatorV2.statuses none none none ++ [Status.OK] :=
  ⟨(C7_predictions_status [⟨"Producto A", [], []⟩]).1 (List.cons_ne_nil _ _),
   (C7_predictions_status []).2.2 none none ⟨[]⟩⟩

/-- Counterexample to C8 as stated: in the cell text "❌ OK" the symbol ❌
should win under the claim's symbol-first rule (FAIL), but the code checks
(✅ or 'OK') before any other symbol and returns OK; and the lowercase cell
"fail" matches no symbol and no uppercase keyword under the claim
(UNKNOWN), but the code uppercases the text first and returns FAIL. -/
theorem C8_counterexample :
    ValidationParser.row_status "❌ OK" = .OK ∧
    ValidationParser.row_status_specModel "❌ OK" = .FAIL ∧
    ValidationParser.row_status "fail" = .FAIL ∧
    ValidationParser.row_status_specModel "fail" = .UNKNOWN := by
  refine ⟨by decide, by decide, by decide, by decide⟩

/-- C8 as amended: the status cell is normalized by checking, for each
status value in the fixed order OK, WARNING, FAIL, its symbol or its
keyword together — the keyword being matched against the uppercased cell
text, so lowercase keywords match too — and UNKNOWN when no check
matches. -/
theorem C8_row_status (t : String) :
    ((pyContains t "✅" || pyContains (pyUpper t) "OK") = true →
      ValidationParser.row_status t = .OK) ∧
    ((pyContains t "✅" || pyContains (pyUpper t) "OK") = false →
      (pyContains t "⚠️" || pyContains (pyUpper t) "WARNING") = true →
      ValidationParser.row_status t = .WARNING) ∧
    ((pyContains t "✅" || pyContains (pyUpper t) "OK") = false →
      (pyContains t "⚠️" || pyContains (pyUpper t) "WARNING") = false →
      (pyContains t "❌" || pyContains (pyUpper t) "FAIL") = true →
      ValidationParser.row_status t = .FAIL) ∧
    ((pyContains t "✅" || pyContains (pyUpper t) "OK") = false →
      (pyContains t "⚠️" || pyContains (pyUpper t) "WARNING") = false →
      (pyContains t "❌" || pyContains (pyUpper t) "FAIL") = false →
      ValidationParser.row_status t = .UNKNOWN) := by
  refine ⟨fun h1 => ?_, fun h1 h2 => ?_, fun h1 h2 h3 => ?_, fun h1 h2 h3 => ?_⟩ <;>
    simp_all [ValidationParser.row_status]

/-- C9: For every input document in which an expected container (or the
table inside it) of an optional section is absent, the extractors'
`parse` still returns a record — totality of the Lean functions — with
the field for the missing section equal to the empty mapping/list (for
the dict-valued sections: the record with every optional key absent),
for both the baseline and the validation parser. -/
theorem C9_missing_sections (doc : List Dom.DivM) :
    ((Dom.findDivById doc "info-cliente" = none →
        (BaselineParser.parse doc).info_cliente = []) ∧
     (∀ sec, Dom.findDivById doc "info-cliente" = some sec → sec.tables = [] →
        (BaselineParser.parse doc).info_cliente = [])) ∧
    (Dom.findDivById doc "wstd-section" = none →
      (BaselineParser.parse doc).diagnostico_wstd = ⟨none, none⟩) ∧
    ((Dom.findDivById doc "process-details" = none →
        (BaselineParser.parse doc).detalles_proceso = []) ∧
     (∀ sec, Dom.findDivById doc "process-details" = some sec → sec.tables = [] →
        (BaselineParser.parse doc).detalles_proceso = [])) ∧
    ((Dom.findDivById doc "correction-stats" = none →
        (BaselineParser.parse doc).estadisticas_correccion = []) ∧
     (∀ sec, Dom.findDivById doc "correction-stats" = some sec → sec.tables = [] →
        (BaselineParser.parse doc).estadisticas_correccion = [])) ∧
    ((Dom.findDivById doc "baseline-info" = none →
        (BaselineParser.parse doc).baseline_generado = []) ∧
     (∀ sec, Dom.findDivById doc "baseline-info" = some sec → sec.tables = [] →
        (BaselineParser.parse doc).baseline_generado = [])) ∧
    (Dom.findDivById doc "verification-section" = none →
      (BaselineParser.parse doc).verificacion = ⟨none, none, none, none⟩) ∧
    ((Dom.findDivById doc "info-servicio" = none →
        (ValidationParser.parse doc).info_servicio = []) ∧
     (∀ sec, Dom.findDivById doc "info-servicio" = some sec → sec.tables = [] →
        (ValidationParser.parse doc).info_servicio = [])) ∧
    (Dom.findDivById doc "resumen-ejecutivo" = none →
      (ValidationParser.parse doc).resumen_ejecutivo = ⟨none, none, none⟩) ∧
    ((Dom.findDivById doc "criterios-validacion" = none →
        (ValidationParser.parse doc).criterios_validacion = []) ∧
     (∀ sec, Dom.findDivById doc "criterios-validacion" = some sec → sec.tables = [] →
        (ValidationParser.parse doc).criterios_validacion = [])) ∧
    (Dom.findDivById doc "estadisticas-globales" = none →
      (ValidationParser.parse doc).estadisticas_globales = ⟨none, none⟩) ∧
    ((Dom.findDivById doc "resultados-detallados" = none →
        (ValidationParser.parse doc).resultados_detallados = []) ∧
     (∀ sec, Dom.findDivById doc "resultados-detallados" = some sec → sec.tables = [] →
        (ValidationParser.parse doc).resultados_detallados = [])) := by
  refine ⟨⟨fun h => ?_, fun sec h1 h2 => ?_⟩, fun h => ?_,
    ⟨fun h => ?_, fun sec h1 h2 => ?_⟩, ⟨fun h => ?_, fun sec h1 h2 => ?_⟩,
    ⟨fun h => ?_, fun sec h1 h2 => ?_⟩, fun h => ?_,
    ⟨fun h => ?_, fun sec h1 h2 => ?_⟩, fun h => ?_,
    ⟨fun h => ?_, fun sec h1 h2 => ?_⟩, fun h => ?_,
    ⟨fun h => ?_, fun sec h1 h2 => ?_⟩⟩
  · simp [BaselineParser.parse, BaselineParser.extract_client_info, h]
  · simp [BaselineParser.parse, BaselineParser.extract_client_info, h1, h2]
  · simp [BaselineParser.parse, BaselineParser.extract_wstd_diagnostics, h]
  · simp [BaselineParser.parse, BaselineParser.extract_process_details, h]
  · simp [BaselineParser.parse, BaselineParser.extract_process_details, h1, h2]
  · simp [BaselineParser.parse, BaselineParser.extract_correction_stats, h]
  · simp [BaselineParser.parse, BaselineParser.extract_correction_stats, h1, h2]
  · simp [BaselineParser.parse, BaselineParser.extract_baseline_info, h]
  · simp [BaselineParser.parse, BaselineParser.extract_baseline_info, h1, h2]
  · simp [BaselineParser.parse, BaselineParser.extract_verification,
      findDivWithSiblings_eq_none h]
  · simp [ValidationParser.parse, ValidationParser.extract_service_info, h]
  · simp [ValidationParser.parse, ValidationParser.extract_service_info, h1, h2]
  · simp [ValidationParser.parse, ValidationParser.extract_executive_summary, h]
  · simp [ValidationParser.parse, ValidationParser.extract_validation_criteria, h]
  · simp [ValidationParser.parse, ValidationParser.extract_validation_criteria, h1, h2]
  · simp [ValidationParser.parse, ValidationParser.extract_global_stats, h]
  · simp [ValidationParser.parse, ValidationParser.extract_detailed_results, h]
  · simp [ValidationParser.parse, ValidationParser.extract_detailed_results, h1, h2]

/-- Witness for C9 at a concrete input: parsing the empty document yields
records with every section field empty. -/
theorem C9_missing_sections_witness :
    (BaselineParser.parse []).info_cliente = [] ∧
    (BaselineParser.parse []).diagnostico_wstd = ⟨none, none⟩ ∧
    (BaselineParser.parse []).detalles_proceso = [] ∧
    (BaselineParser.parse []).estadisticas_correccion = [] ∧
    (BaselineParser.parse []).baseline_generado = [] ∧
    (BaselineParser.parse []).verificacion = ⟨none, none, none, none⟩ ∧
    (ValidationParser.parse []).info_servicio = [] ∧
    (ValidationParser.parse []).resumen_ejecutivo = ⟨none, none, none⟩ ∧
    (ValidationParser.parse []).criterios_validacion = [] ∧
    (ValidationParser.parse []).estadisticas_globales = ⟨none, none⟩ ∧
    (ValidationParser.parse []).resultados_detallados = [] :=
  ⟨(C9_missing_sections []).1.1 rfl,
   (C9_missing_sections []).2.1 rfl,
   (C9_missing_sections []).2.2.1.1 rfl,
   (C9_missing_sections []).2.2.2.1.1 rfl,
   (C9_missing_sections []).2.2.2.2.1.1 rfl,
   (C9_missing_sections []).2.2.2.2.2.1 rfl,
   (C9_missing_sections []).2.2.2.2.2.2.1.1 rfl,
   (C9_missing_sections []).2.2.2.2.2.2.2.1 rfl,
   (C9_missing_sections []).2.2.2.2.2.2.2.2.1.1 rfl,
   (C9_missing_sections []).2.2.2.2.2.2.2.2.2.1 rfl,
   (C9_missing_sections []).2.2.2.2.2.2.2.2.2.2.1 rfl⟩

/-- Witness for the amended C8 at concrete inputs: each branch of the
normalization on a concrete cell text. -/
theorem C8_row_status_witness :
    ValidationParser.row_status "✅ ok" = .OK ∧
    ValidationParser.row_status "⚠️ atención" = .WARNING ∧
    ValidationParser.row_status "estado: FAIL" = .FAIL ∧
    ValidationParser.row_status "sin datos" = .UNKNOWN :=
  ⟨(C8_row_status "✅ ok").1 (by decide),
   (C8_row_status "⚠️ atención").2.1 (by decide) (by decide),
   (C8_row_status "estado: FAIL").2.2.1 (by decide) (by decide) (by decide),
   (C8_row_status "sin datos").2.2.2 (by decide) (by decide) (by decide)⟩

/-- Counterexample to C5 as stated: the document content recoverable from
the v2 blob payload is not the original input — the renderer injects a
sidebar-fix script before encoding — and the legacy iframe escaping
replaces the newline of "A\nB" with a space, so neither embedding
mechanism returns the original character for character. -/
theorem C5_counterexample :
    b64Decode (ConsolidatorV2.collapsible_payload "<body>A</body>").data ≠
      some (utf8Encode "<body>A</body>") ∧
    ConsolidatorV2.srcdoc_decode (ConsolidatorV2.iframe_escape "A\nB") ≠ "A\nB" := by
  constructor
  · rw [payload_decode]
    decide
  · decide

/-- C5 as amended: the content recoverable from the v2 blob payload
(base64-decoding the embedded payload) equals the UTF-8 bytes of the
original document with the fixed sidebar-navigation script injected
before each `</body>` (appended at the end when the document has none) —
not the original itself; the legacy iframe strategy turns every `"` into
`&quot;` (undone by the browser) but also every newline into a space, as
the concrete input "A\nB" shows. -/
theorem C5_embedding :
    (∀ html_content : String,
      b64Decode (ConsolidatorV2.collapsible_payload html_content).data =
        some (utf8Encode (ConsolidatorV2.inject_sidebar_fix html_content))) ∧
    ConsolidatorV2.srcdoc_decode (ConsolidatorV2.iframe_escape "A\nB") = "A B" :=
  ⟨payload_decode, by decide⟩

set_option maxRecDepth 16384 in
/-- Counterexample to C6 as stated: rendering the very same section
inputs (same metadata, same parsed summary, same raw document) with two
different runtime object addresses for the raw document yields different
output bytes — and the differing fragment is the `id(html_content)`-based
button identifier, not an explicitly-dynamic timestamp field. -/
theorem C6_counterexample :
    ConsolidatorV2.generate_collapsible_section "baseline" "T" "S" "<body></body>" 0 ≠
      ConsolidatorV2.generate_collapsible_section "baseline" "T" "S" "<body></body>" 1 := by
  decide

/-- C6 as amended: rendering a detail section is deterministic in the
supplied data plus the raw-document object's memory address — two
renderings with the same section id, title, summary and raw document are
byte-identical exactly as soon as the two addresses agree modulo 100000
(the button-id truncation); the address, not a caller-chosen dynamic
field, is the only source of variation. -/
theorem C6_render_determinism (section_id title parsed_summary html_content : String)
    (a1 a2 : Nat) (h : a1 % 100000 = a2 % 100000) :
    ConsolidatorV2.generate_collapsible_section section_id title parsed_summary
      html_content a1 =
    ConsolidatorV2.generate_collapsible_section section_id title parsed_summary
      html_content a2 := by
  unfold ConsolidatorV2.generate_collapsible_section ConsolidatorV2.button_id
  rw [h]

/-- Witness for the amended C6 at concrete inputs: the addresses 100001
and 1 agree modulo 100000, so the rendered sections coincide. -/
theorem C6_render_determinism_witness :
    ConsolidatorV2.generate_collapsible_section "baseline" "T" "S" "<body></body>" 100001 =
      ConsolidatorV2.generate_collapsible_section "baseline" "T" "S" "<body></body>" 1 :=
  C6_render_determinism "baseline" "T" "S" "<body></body>" 100001 1 (by decide)

end RC
